import Mathlib

/-!
Formal model of the AgentPay Python SDK (`src/sdk/AgentPaySDK.py`), a thin
client wrapper around a deployed escrow contract.  Pure computations
(status decoding, unit conversion, address checksumming, receipt/event
decoding) are embedded as Lean functions; the network boundary
(gas price, nonce, raw-transaction submission, receipt polling) is an
explicit environment record, and every SDK operation returns the list of
network calls it performed together with its `Except` result, so that
"fails before any network call" is the statement that the returned call
list is empty.

Library functions the SDK calls (`Web3.to_checksum_address`,
`Web3.to_wei`, `Web3.from_wei`, `eth_account.from_key`, and web3's
ABI-argument validation in `find_matching_fn_abi`) are embedded from the
web3/eth-utils semantics; the keccak-256 digest used by EIP-55
checksumming and the ECDSA address derivation used by `from_key` are
taken as function parameters, since every property proved here holds for
an arbitrary digest/derivation function and hence for the real one.
-/

/-- ASCII lowercasing of one character, as Python `str.lower` acts on the
ASCII range (eth-utils lowercases the address before hashing). -/
def asciiToLower (c : Char) : Char :=
  if 65 ≤ c.toNat ∧ c.toNat ≤ 90 then Char.ofNat (c.toNat + 32) else c

/-- ASCII uppercasing of a lowercase hex letter, as Python `str.upper`
acts on the characters `a`-`f` (digits are unchanged). -/
def hexToUpper (c : Char) : Char :=
  if 97 ≤ c.toNat ∧ c.toNat ≤ 102 then Char.ofNat (c.toNat - 32) else c

/-- Is `c` a lowercase hexadecimal digit (`0`-`9` or `a`-`f`)? -/
def isHexLowerDigit (c : Char) : Bool :=
  (48 ≤ c.toNat && c.toNat ≤ 57) || (97 ≤ c.toNat && c.toNat ≤ 102)

/-- Drop a leading `0x`, as eth-utils `remove_0x_prefix` does. -/
def strip0x (s : List Char) : List Char :=
  if s.take 2 = ['0', 'x'] then s.drop 2 else s

/-- Body of an EIP-55 checksummed address: each character of the
lowercased 40-character hex body is uppercased exactly when the
corresponding nibble of `hash` applied to that body exceeds 7.  `hash`
stands for the keccak-256 nibble stream of eth-utils
`to_checksum_address`. -/
def checksum_body (hash : List Char → List Nat) (low : List Char) : List Char :=
  List.zipWith (fun a h => if 7 < h then hexToUpper a else a) low (hash low)

/-- Model of `Web3.to_checksum_address`: lowercase, strip the optional
`0x`, validate 40 hex characters, then re-case per `checksum_body`;
`none` models the `ValueError` raised on a malformed address. -/
def to_checksum_address (hash : List Char → List Nat) (addr : List Char) :
    Option (List Char) :=
  let low := strip0x (addr.map asciiToLower)
  if (low.length == 40) && low.all isHexLowerDigit then
    some ('0' :: 'x' :: checksum_body hash low)
  else none

/-- String-level wrapper of `to_checksum_address`. -/
def to_checksum_addressS (hash : List Char → List Nat) (s : String) :
    Option String :=
  (to_checksum_address hash s.toList).map List.asString

/-- Truncation of a rational toward zero, as Python `int()` acts on a
`Decimal`. -/
def truncQ (q : ℚ) : ℤ := if 0 ≤ q then ⌊q⌋ else ⌈q⌉

/-- Model of `Web3.to_wei(amount, "ether")`: the exact decimal value is
scaled by `10^18`, bounds-checked against `2^256 - 1` (web3 raises
`ValueError` outside the range, modeled as `none`), then truncated to an
integer. -/
def to_wei (a : ℚ) : Option ℤ :=
  let r := a * 10 ^ 18
  if 0 ≤ r ∧ r ≤ 2 ^ 256 - 1 then some (truncQ r) else none

/-- Model of `Web3.from_wei(n, "ether")`: exact division by `10^18`
(the SDK's callers additionally pass the result through `float`, the
documented lossy step, which this exact model elides). -/
def from_wei (n : ℤ) : ℚ := (n : ℚ) / 10 ^ 18

/-- Status decoding of `get_task` (line 206 of the SDK): the Python dict
`{0: Created, 1: Submitted, 2: Resolved, 3: Cancelled}` read with
default `"Unknown"`. -/
def status_map (c : Nat) : String :=
  if c == 0 then "Created"
  else if c == 1 then "Submitted"
  else if c == 2 then "Resolved"
  else if c == 3 then "Cancelled"
  else "Unknown"

/-- Python numeric value as it reaches the `score` parameter of
`score_and_resolve`: either an `int` or a `float` (a finite float is
modeled by its exact rational value). -/
inductive PyNum where
  | int : ℤ → PyNum
  | float : ℚ → PyNum
  deriving Repr, DecidableEq

/-- Numeric value of a `PyNum`; Python compares `int` and `float`
operands by their mathematical values. -/
def PyNum.toRat : PyNum → ℚ
  | .int n => (n : ℚ)
  | .float q => q

/-- Python `a <= b` on numbers. -/
def pyLeB (a b : PyNum) : Bool := a.toRat ≤ b.toRat

/-- Signing identity derived by `eth_account.from_key`: the normalized
private key together with its derived address. -/
structure Account where
  key : String
  address : String
  deriving Repr, DecidableEq

/-- Client state of `AgentPaySDK`: the checksummed contract address and
the optional signing identity `self.account`. -/
structure AgentPaySDK where
  contract_address : String
  account : Option Account
  deriving Repr, DecidableEq

/-- Encoded contract-call payload of a transaction built by the SDK. -/
inductive CallData where
  | createTask (payee : String) (description : String)
  | submitDeliverable (task_id : Nat) (deliverable_hash : String)
  | scoreAndResolve (task_id : Nat) (score : ℤ)
  | cancelTask (task_id : Nat)
  deriving Repr, DecidableEq

/-- Transaction parameters as assembled by `build_transaction`: the SDK
always supplies from, gas, gasPrice and nonce; `value` is supplied only
by `create_task` (fields the SDK never sets are omitted). -/
structure TxParams where
  from_addr : String
  to_addr : String
  value : Option ℤ
  gas : Nat
  gasPrice : Nat
  nonce : Nat
  callData : CallData
  deriving Repr, DecidableEq

/-- Decoded `TaskCreated` event, as produced by `process_receipt`. -/
structure TaskCreatedEvent where
  taskId : Nat
  deriving Repr, DecidableEq

/-- Decoded `TaskResolved` event, as produced by `process_receipt`. -/
structure TaskResolvedEvent where
  payeeAmount : Nat
  refundAmount : Nat
  deriving Repr, DecidableEq

/-- Transaction receipt, carrying its hash and the decoded event lists
that `process_receipt` extracts from its log. -/
structure Receipt where
  transactionHash : String
  taskCreatedEvents : List TaskCreatedEvent
  taskResolvedEvents : List TaskResolvedEvent
  deriving Repr, DecidableEq

/-- The network boundary: responses of the ledger node to the five RPC
primitives the SDK uses. -/
structure NetworkEnv where
  gas_price : Nat
  get_transaction_count : String → Nat
  send_raw_transaction : TxParams × String → String
  wait_for_transaction_receipt : String → Receipt
  balance_of : String → Nat

/-- One network call performed by an SDK operation, recorded in order. -/
inductive NetCall where
  | gasPrice
  | getTransactionCount (address : String)
  | sendRawTransaction (tx : TxParams × String)
  | waitForTransactionReceipt (tx_hash : String)
  deriving Repr, DecidableEq

/-- Errors an SDK operation can raise locally, before or instead of the
network round trip: the bare `Exception("Signer required ...")` of the
signer guards (the spec's `SignerRequiredError`), Python/library
`ValueError` (the spec's `ValidationError`), and web3's ABI-argument
validation error raised by `find_matching_fn_abi`. -/
inductive SdkError where
  | signerRequired (msg : String)
  | valueError (msg : String)
  | web3ValidationError (msg : String)
  deriving Repr, DecidableEq

/-- Result dict of `create_task`. -/
structure CreateTaskResult where
  taskId : Option Nat
  txHash : String
  deriving Repr, DecidableEq

/-- Result dict of `submit_deliverable` and `cancel_task`. -/
structure TxResult where
  txHash : String
  deriving Repr, DecidableEq

/-- Result dict of `score_and_resolve`. -/
structure ScoreResult where
  txHash : String
  payeeAmount : ℚ
  refundAmount : ℚ
  deriving Repr, DecidableEq

/-- Raw positional tuple returned by the contract's `getTask`. -/
structure TaskTuple where
  payer : String
  payee : String
  amount : Nat
  description : String
  status : Nat
  createdAt : Nat
  submittedAt : Nat
  deliverableHash : String
  score : Nat
  resolved : Bool
  deriving Repr, DecidableEq

/-- Decoded task dict returned by `get_task`. -/
structure TaskInfo where
  payer : String
  payee : String
  amount : ℚ
  description : String
  status : String
  createdAt : Nat
  submittedAt : Nat
  deliverableHash : String
  score : Nat
  resolved : Bool
  deriving Repr, DecidableEq

/-- Python `s.startswith("0x")`, as used by `set_signer`. -/
def startsWith0x (s : String) : Bool := s.toList.take 2 == ['0', 'x']

/-- Model of `set_signer` (lines 37-41): prepend `0x` when missing and
derive the identity with `from_key` (a pure local computation,
parameterized here as `fromKey`); the empty call list records that no
network request is made. -/
def set_signer (fromKey : String → Account) (sdk : AgentPaySDK)
    (private_key : String) : AgentPaySDK × List NetCall :=
  let key := if startsWith0x private_key then private_key
             else "0x" ++ private_key
  ({ sdk with account := some (fromKey key) }, [])

/-- Transaction built by `create_task` (lines 62-71): funded with the
converted amount, fixed gas 500000, live gas price and nonce. -/
def create_task_tx (sdk : AgentPaySDK) (account : Account) (env : NetworkEnv)
    (payee : String) (description : String) (amount_wei : ℤ) : TxParams :=
  { from_addr := account.address
    to_addr := sdk.contract_address
    value := some amount_wei
    gas := 500000
    gasPrice := env.gas_price
    nonce := env.get_transaction_count account.address
    callData := .createTask payee description }

/-- Network calls of a successful mutating operation, in source order:
gas-price fetch and nonce fetch while the transaction dict is built,
then raw submission, then the receipt poll. -/
def mutating_trace (env : NetworkEnv) (account : Account) (tx : TxParams) :
    List NetCall :=
  [.gasPrice, .getTransactionCount account.address,
   .sendRawTransaction (tx, account.key),
   .waitForTransactionReceipt (env.send_raw_transaction (tx, account.key))]

/-- Model of `create_task` (lines 43-85): signer guard, payee checksum
normalization, unit conversion, transaction round trip, and `taskId`
extraction from the first decoded `TaskCreated` event (`None` when the
receipt has no such event). -/
def create_task (hash : List Char → List Nat) (sdk : AgentPaySDK)
    (env : NetworkEnv) (payee_address description : String)
    (amount_eth : ℚ) : List NetCall × Except SdkError CreateTaskResult :=
  match sdk.account with
  | none => ([], .error (.signerRequired "Signer required for creating tasks"))
  | some account =>
    match to_checksum_addressS hash payee_address with
    | none => ([], .error (.valueError
        "when sending a str, it must be a hex string"))
    | some payee =>
      match to_wei amount_eth with
      | none => ([], .error (.valueError
          "Resulting wei value must be between 1 and 2**256 - 1"))
      | some amount_wei =>
        let tx := create_task_tx sdk account env payee description amount_wei
        let tx_hash := env.send_raw_transaction (tx, account.key)
        let receipt := env.wait_for_transaction_receipt tx_hash
        (mutating_trace env account tx,
         .ok { taskId := receipt.taskCreatedEvents.head?.map TaskCreatedEvent.taskId
               txHash := receipt.transactionHash })

/-- Transaction built by `submit_deliverable` (lines 101-109): no value
transfer, fixed gas 200000. -/
def submit_deliverable_tx (sdk : AgentPaySDK) (account : Account)
    (env : NetworkEnv) (task_id : Nat) (deliverable_hash : String) : TxParams :=
  { from_addr := account.address
    to_addr := sdk.contract_address
    value := none
    gas := 200000
    gasPrice := env.gas_price
    nonce := env.get_transaction_count account.address
    callData := .submitDeliverable task_id deliverable_hash }

/-- Model of `submit_deliverable` (lines 87-117): signer guard, then the
unfunded transaction round trip. -/
def submit_deliverable (sdk : AgentPaySDK) (env : NetworkEnv)
    (task_id : Nat) (deliverable_hash : String) :
    List NetCall × Except SdkError TxResult :=
  match sdk.account with
  | none => ([], .error (.signerRequired
      "Signer required for submitting deliverables"))
  | some account =>
    let tx := submit_deliverable_tx sdk account env task_id deliverable_hash
    let tx_hash := env.send_raw_transaction (tx, account.key)
    let receipt := env.wait_for_transaction_receipt tx_hash
    (mutating_trace env account tx, .ok { txHash := receipt.transactionHash })

/-- Transaction built by `score_and_resolve` (lines 136-144): no value
transfer, fixed gas 300000. -/
def score_and_resolve_tx (sdk : AgentPaySDK) (account : Account)
    (env : NetworkEnv) (task_id : Nat) (score : ℤ) : TxParams :=
  { from_addr := account.address
    to_addr := sdk.contract_address
    value := none
    gas := 300000
    gasPrice := env.gas_price
    nonce := env.get_transaction_count account.address
    callData := .scoreAndResolve task_id score }

/-- Payment-detail decoding of `score_and_resolve` (lines 151-158): the
first decoded `TaskResolved` event's amounts converted from wei, or
`(0, 0)` when the receipt carries no such event. -/
def decode_resolution (receipt : Receipt) : ℚ × ℚ :=
  match receipt.taskResolvedEvents.head? with
  | some e => (from_wei e.payeeAmount, from_wei e.refundAmount)
  | none => (0, 0)

/-- Model of `score_and_resolve` (lines 119-164): signer guard; local
range check `0 <= score <= 100` under Python's mixed numeric comparison
(`ValueError` when it fails); then web3's ABI-argument validation in
`contract.functions.scoreAndResolve(task_id, score)`, which rejects a
non-`int` score before the transaction dict — and hence any network
request — is evaluated; then the transaction round trip and event
decoding. -/
def score_and_resolve (sdk : AgentPaySDK) (env : NetworkEnv)
    (task_id : Nat) (score : PyNum) :
    List NetCall × Except SdkError ScoreResult :=
  match sdk.account with
  | none => ([], .error (.signerRequired "Signer required for scoring tasks"))
  | some account =>
    if !(pyLeB (.int 0) score && pyLeB score (.int 100)) then
      ([], .error (.valueError "Score must be between 0 and 100"))
    else
      match score with
      | .float _ => ([], .error (.web3ValidationError
          "Could not identify the intended function with name scoreAndResolve"))
      | .int s =>
        let tx := score_and_resolve_tx sdk account env task_id s
        let tx_hash := env.send_raw_transaction (tx, account.key)
        let receipt := env.wait_for_transaction_receipt tx_hash
        (mutating_trace env account tx,
         .ok { txHash := receipt.transactionHash
               payeeAmount := (decode_resolution receipt).1
               refundAmount := (decode_resolution receipt).2 })

/-- Transaction built by `cancel_task` (lines 179-184): no value
transfer, fixed gas 200000. -/
def cancel_task_tx (sdk : AgentPaySDK) (account : Account)
    (env : NetworkEnv) (task_id : Nat) : TxParams :=
  { from_addr := account.address
    to_addr := sdk.contract_address
    value := none
    gas := 200000
    gasPrice := env.gas_price
    nonce := env.get_transaction_count account.address
    callData := .cancelTask task_id }

/-- Model of `cancel_task` (lines 166-192): signer guard, then the
unfunded transaction round trip. -/
def cancel_task (sdk : AgentPaySDK) (env : NetworkEnv) (task_id : Nat) :
    List NetCall × Except SdkError TxResult :=
  match sdk.account with
  | none => ([], .error (.signerRequired "Signer required for cancelling tasks"))
  | some account =>
    let tx := cancel_task_tx sdk account env task_id
    let tx_hash := env.send_raw_transaction (tx, account.key)
    let receipt := env.wait_for_transaction_receipt tx_hash
    (mutating_trace env account tx, .ok { txHash := receipt.transactionHash })

/-- Decoding step of `get_task` (lines 194-219), applied to the raw
tuple the contract call returned: wei conversion on the amount and
`status_map` on the status code. -/
def get_task (task : TaskTuple) : TaskInfo :=
  { payer := task.payer
    payee := task.payee
    amount := from_wei task.amount
    description := task.description
    status := status_map task.status
    createdAt := task.createdAt
    submittedAt := task.submittedAt
    deliverableHash := task.deliverableHash
    score := task.score
    resolved := task.resolved }

/-- Model of `get_balance` (lines 221-233): checksum normalization, then
the balance query converted from wei. -/
def get_balance (hash : List Char → List Nat) (env : NetworkEnv)
    (address : String) : Except SdkError ℚ :=
  match to_checksum_addressS hash address with
  | none => .error (.valueError "when sending a str, it must be a hex string")
  | some a => .ok (from_wei (env.balance_of a))

/-- Receipt obtained by a successful `create_task` round trip: the
receipt the node returns for the signed creation transaction. -/
def create_receipt (sdk : AgentPaySDK) (account : Account) (env : NetworkEnv)
    (payee description : String) (amount_wei : ℤ) : Receipt :=
  env.wait_for_transaction_receipt
    (env.send_raw_transaction
      (create_task_tx sdk account env payee description amount_wei, account.key))

/-- Receipt obtained by a successful `score_and_resolve` round trip. -/
def score_receipt (sdk : AgentPaySDK) (account : Account) (env : NetworkEnv)
    (task_id : Nat) (score : ℤ) : Receipt :=
  env.wait_for_transaction_receipt
    (env.send_raw_transaction
      (score_and_resolve_tx sdk account env task_id score, account.key))

/-- Concrete keccak stand-in used to instantiate the hash-parameterized
theorems on concrete inputs: a constant 64-nibble digest. -/
def hash0 : List Char → List Nat := fun _ => List.replicate 64 8

/-- Concrete network environment used to instantiate theorems. -/
def env0 : NetworkEnv :=
  { gas_price := 7
    get_transaction_count := fun _ => 3
    send_raw_transaction := fun _ => "0xsent"
    wait_for_transaction_receipt := fun _ =>
      { transactionHash := "0xreceipthash"
        taskCreatedEvents := [{ taskId := 42 }]
        taskResolvedEvents := [{ payeeAmount := 10 ^ 18, refundAmount := 0 }] }
    balance_of := fun _ => 5 }

/-- Concrete network environment whose receipts carry no decoded events. -/
def env1 : NetworkEnv :=
  { gas_price := 7
    get_transaction_count := fun _ => 3
    send_raw_transaction := fun _ => "0xsent"
    wait_for_transaction_receipt := fun _ =>
      { transactionHash := "0xreceipthash"
        taskCreatedEvents := []
        taskResolvedEvents := [] }
    balance_of := fun _ => 5 }

/-- Concrete signing identity used to instantiate theorems. -/
def acct0 : Account := { key := "0xkey", address := "0xsigner" }

/-- Concrete client with a configured signer. -/
def sdk0 : AgentPaySDK :=
  { contract_address := "0xcontract", account := some acct0 }

/-- Concrete client with no configured signer. -/
def sdkNone : AgentPaySDK :=
  { contract_address := "0xcontract", account := none }

/-- Concrete key-derivation stand-in used to instantiate the
`fromKey`-parameterized theorems. -/
def fromKey0 : String → Account := fun k => { key := k, address := "0xderived" }

/-! ### Character-level lemmas for EIP-55 checksumming -/

/-- Unpacking `Char.ofNat` below the surrogate range. -/
theorem toNat_ofNat_lt (n : Nat) (h : n < 55296) : (Char.ofNat n).toNat = n := by
  have hv : n.isValidChar := Or.inl h
  rw [Char.ofNat, dif_pos hv]
  simp [Char.ofNatAux, Char.toNat, UInt32.toNat, BitVec.toNat_ofNatLt]

/-- Lowercasing undoes the uppercasing of a lowercase hex digit. -/
theorem asciiToLower_hexToUpper (c : Char) (h : isHexLowerDigit c = true) :
    asciiToLower (hexToUpper c) = c := by
  simp only [isHexLowerDigit, Bool.or_eq_true, Bool.and_eq_true,
    decide_eq_true_eq] at h
  rcases h with ⟨h1, h2⟩ | ⟨h1, h2⟩
  · rw [hexToUpper, if_neg (by omega), asciiToLower, if_neg (by omega)]
  · rw [hexToUpper, if_pos (by omega)]
    have ht : (Char.ofNat (c.toNat - 32)).toNat = c.toNat - 32 :=
      toNat_ofNat_lt _ (by omega)
    rw [asciiToLower, if_pos (by omega), ht]
    have hc : c.toNat - 32 + 32 = c.toNat := by omega
    rw [hc, Char.ofNat_toNat]

/-- Lowercase hex digits are fixed by lowercasing. -/
theorem asciiToLower_of_hexLower (c : Char) (h : isHexLowerDigit c = true) :
    asciiToLower c = c := by
  simp only [isHexLowerDigit, Bool.or_eq_true, Bool.and_eq_true,
    decide_eq_true_eq] at h
  rw [asciiToLower, if_neg (by omega)]

/-- Lowercasing a checksum body recovers the lowercase input (up to the
nibble stream's length). -/
theorem map_asciiToLower_zipWith (low : List Char) (nib : List Nat)
    (h : low.all isHexLowerDigit = true) :
    (List.zipWith (fun a h => if 7 < h then hexToUpper a else a) low nib).map
      asciiToLower = low.take nib.length := by
  induction low generalizing nib with
  | nil => simp
  | cons c cs ih =>
    cases nib with
    | nil => simp
    | cons n ns =>
      simp only [List.all_cons, Bool.and_eq_true] at h
      simp only [List.zipWith_cons_cons, List.map_cons, List.length_cons,
        List.take_succ_cons, ih ns h.2]
      congr 1
      by_cases hn : 7 < n
      · rw [if_pos hn, asciiToLower_hexToUpper c h.1]
      · rw [if_neg hn, asciiToLower_of_hexLower c h.1]

/-- List-level idempotence of checksum normalization, for any nibble
stream of digest length at least 40 (keccak-256 yields 64). -/
theorem checksum_idempotent_list (hash : List Char → List Nat)
    (hlen : ∀ s, 40 ≤ (hash s).length)
    (x r : List Char) (h : to_checksum_address hash x = some r) :
    to_checksum_address hash r = some r := by
  unfold to_checksum_address at h
  set low := strip0x (x.map asciiToLower) with hlow
  by_cases hc : ((low.length == 40) && low.all isHexLowerDigit) = true
  · rw [if_pos hc] at h
    simp only [Bool.and_eq_true, beq_iff_eq] at hc
    obtain ⟨hc1, hc2⟩ := hc
    have hmap : (checksum_body hash low).map asciiToLower = low := by
      rw [checksum_body, map_asciiToLower_zipWith low (hash low) hc2,
        List.take_of_length_le (by rw [hc1]; exact hlen low)]
    have hr : r = '0' :: 'x' :: checksum_body hash low := by
      injection h with h
      exact h.symm
    subst hr
    unfold to_checksum_address
    have hmap2 : (('0' :: 'x' :: checksum_body hash low).map asciiToLower)
        = '0' :: 'x' :: low := by
      simp only [List.map_cons, hmap]
      rfl
    rw [hmap2]
    have hstrip : strip0x ('0' :: 'x' :: low) = low := by
      simp [strip0x, List.take]
    rw [hstrip, if_pos (by simp [hc1, hc2])]
  · rw [if_neg hc] at h
    exact absurd h (by simp)

/-- List-level case insensitivity: the checksum depends only on the
lowercased input. -/
theorem checksum_case_invariant_list (hash : List Char → List Nat)
    (x y : List Char) (h : x.map asciiToLower = y.map asciiToLower) :
    to_checksum_address hash x = to_checksum_address hash y := by
  unfold to_checksum_address
  rw [h]

/-- C6: address checksum normalization — as applied by the SDK to the
contract address at construction, the payee in `create_task`, and the
address in `get_balance` — is idempotent on every syntactically valid
address, and two addresses that differ only in letter case normalize to
the same checksummed value; this holds for every digest function of
nibble length at least 40, hence for keccak-256. -/
theorem checksum_normalization_props (hash : List Char → List Nat)
    (hlen : ∀ s, 40 ≤ (hash s).length) :
    (∀ x r : String, to_checksum_addressS hash x = some r →
      to_checksum_addressS hash r = some r)
    ∧ (∀ x y : String, x.toList.map asciiToLower = y.toList.map asciiToLower →
      to_checksum_addressS hash x = to_checksum_addressS hash y) := by
  constructor
  · intro x r h
    unfold to_checksum_addressS at h ⊢
    cases hx : to_checksum_address hash x.toList with
    | none => rw [hx] at h; exact absurd h (by simp)
    | some l =>
      rw [hx] at h
      simp only [Option.map_some'] at h
      have hl : to_checksum_address hash l = some l :=
        checksum_idempotent_list hash hlen x.toList l hx
      have hr : r = l.asString := by
        injection h with h
        exact h.symm
      have hrl : r.toList = l := by
        rw [hr, List.toList_asString]
      rw [hrl, hl, Option.map_some', hr]
  · intro x y h
    unfold to_checksum_addressS
    rw [checksum_case_invariant_list hash x.toList y.toList h]

/-- Witness: the theorem applied to the concrete digest `hash0` shows
that re-normalizing an already-checksummed concrete address returns it
unchanged. -/
theorem checksum_normalization_props_witness :
    to_checksum_addressS hash0 "0xAAAAAAAAAAAAAAAAAAAAAAAAAAAAAAAAAAAAAAAA" =
      some "0xAAAAAAAAAAAAAAAAAAAAAAAAAAAAAAAAAAAAAAAA" :=
  (checksum_normalization_props hash0
      (fun s => by rw [hash0]; simp)).1
    "0xaaaaaaaaaaaaaaaaaaaaaaaaaaaaaaaaaaaaaaaa"
    "0xAAAAAAAAAAAAAAAAAAAAAAAAAAAAAAAAAAAAAAAA" (by decide)

/-- C5: `get_task` decodes status codes 0, 1, 2, 3 to `Created`,
`Submitted`, `Resolved`, `Cancelled`, and decodes every other numeric
status code (4 or above) to `Unknown` instead of raising. -/
theorem get_task_status_decoding (t : TaskTuple) :
    (get_task t).status = status_map t.status
    ∧ status_map 0 = "Created"
    ∧ status_map 1 = "Submitted"
    ∧ status_map 2 = "Resolved"
    ∧ status_map 3 = "Cancelled"
    ∧ (∀ c : Nat, 4 ≤ c → status_map c = "Unknown") := by
  refine ⟨rfl, rfl, rfl, rfl, rfl, ?_⟩
  intro c hc
  have h0 : c ≠ 0 := by omega
  have h1 : c ≠ 1 := by omega
  have h2 : c ≠ 2 := by omega
  have h3 : c ≠ 3 := by omega
  simp [status_map, h0, h1, h2, h3]

/-- Witness: on a concrete tuple with the unrecognized status code 4,
the decoded status is the string `Unknown`. -/
theorem get_task_status_decoding_witness : status_map 4 = "Unknown" :=
  (get_task_status_decoding
      ⟨"0xp", "0xq", 0, "d", 4, 0, 0, "h", 0, false⟩).2.2.2.2.2 4 (by omega)

/-- C1: with no signing identity configured, each of the four mutating
operations fails with the signer-required error and performs zero
network calls (the returned call list is empty: no gas-price fetch, no
nonce fetch, no submission). -/
theorem mutating_ops_require_signer (hash : List Char → List Nat)
    (sdk : AgentPaySDK) (env : NetworkEnv) (payee desc dh : String)
    (amt : ℚ) (tid : Nat) (s : PyNum) (hacc : sdk.account = none) :
    create_task hash sdk env payee desc amt =
      ([], .error (.signerRequired "Signer required for creating tasks"))
    ∧ submit_deliverable sdk env tid dh =
      ([], .error (.signerRequired "Signer required for submitting deliverables"))
    ∧ score_and_resolve sdk env tid s =
      ([], .error (.signerRequired "Signer required for scoring tasks"))
    ∧ cancel_task sdk env tid =
      ([], .error (.signerRequired "Signer required for cancelling tasks")) := by
  refine ⟨?_, ?_, ?_, ?_⟩ <;>
    simp [create_task, submit_deliverable, score_and_resolve, cancel_task, hacc]

/-- Witness: the four signer-required failures on a concrete unsigned
client, with empty network-call lists. -/
theorem mutating_ops_require_signer_witness :
    create_task hash0 sdkNone env0 "0xp" "d" 1 =
      ([], .error (.signerRequired "Signer required for creating tasks"))
    ∧ submit_deliverable sdkNone env0 1 "h" =
      ([], .error (.signerRequired "Signer required for submitting deliverables"))
    ∧ score_and_resolve sdkNone env0 1 (.int 50) =
      ([], .error (.signerRequired "Signer required for scoring tasks"))
    ∧ cancel_task sdkNone env0 1 =
      ([], .error (.signerRequired "Signer required for cancelling tasks")) :=
  mutating_ops_require_signer hash0 sdkNone env0 "0xp" "d" "h" 1 1 (.int 50) rfl

/-- C10: in `score_and_resolve` the signer guard runs before score
validation — with no signer configured, every score, in particular every
out-of-range score, produces the signer-required error rather than the
score `ValueError`. -/
theorem signer_guard_precedes_score_validation (sdk : AgentPaySDK)
    (env : NetworkEnv) (tid : Nat) (s : PyNum) (hacc : sdk.account = none) :
    score_and_resolve sdk env tid s =
      ([], .error (.signerRequired "Signer required for scoring tasks")) := by
  simp [score_and_resolve, hacc]

/-- Witness: the out-of-range score `-5` still yields the
signer-required error on an unsigned client. -/
theorem signer_guard_precedes_score_validation_witness :
    score_and_resolve sdkNone env0 1 (.int (-5)) =
      ([], .error (.signerRequired "Signer required for scoring tasks")) :=
  signer_guard_precedes_score_validation sdkNone env0 1 (.int (-5)) rfl

/-- C2: with a signer configured, `score_and_resolve` rejects score -1
and score 101 with the score `ValueError` before any network call (empty
call list), rejects every non-integer (float) score before any network
call — out-of-range floats by the same local `ValueError`, in-range
floats by web3's ABI-argument validation raised while the function call
object is constructed, before the transaction dict fetches gas price and
nonce — and accepts the boundary scores 0 and 100, which proceed to the
network round trip. -/
theorem score_validation_boundaries (sdk : AgentPaySDK) (a : Account)
    (env : NetworkEnv) (tid : Nat) (hacc : sdk.account = some a) :
    score_and_resolve sdk env tid (.int (-1)) =
      ([], .error (.valueError "Score must be between 0 and 100"))
    ∧ score_and_resolve sdk env tid (.int 101) =
      ([], .error (.valueError "Score must be between 0 and 100"))
    ∧ (∀ q : ℚ, (score_and_resolve sdk env tid (.float q)).1 = []
        ∧ ∃ m : String,
            (score_and_resolve sdk env tid (.float q)).2 = .error (.valueError m)
          ∨ (score_and_resolve sdk env tid (.float q)).2 =
              .error (.web3ValidationError m))
    ∧ (∃ r : ScoreResult, score_and_resolve sdk env tid (.int 0) =
        (mutating_trace env a (score_and_resolve_tx sdk a env tid 0), .ok r))
    ∧ (∃ r : ScoreResult, score_and_resolve sdk env tid (.int 100) =
        (mutating_trace env a (score_and_resolve_tx sdk a env tid 100), .ok r)) := by
  refine ⟨?_, ?_, ?_, ?_, ?_⟩
  · simp [score_and_resolve, hacc, pyLeB, PyNum.toRat]
  · simp [score_and_resolve, hacc, pyLeB, PyNum.toRat]
    norm_num
  · intro q
    by_cases hq : (0 : ℚ) ≤ q ∧ q ≤ 100
    · constructor
      · simp [score_and_resolve, hacc, pyLeB, PyNum.toRat, hq.1, hq.2]
      · refine ⟨"Could not identify the intended function with name scoreAndResolve", Or.inr ?_⟩
        simp [score_and_resolve, hacc, pyLeB, PyNum.toRat, hq.1, hq.2]
    · rw [not_and_or] at hq
      constructor
      · rcases hq with hq | hq <;>
          simp [score_and_resolve, hacc, pyLeB, PyNum.toRat, hq]
      · refine ⟨"Score must be between 0 and 100", Or.inl ?_⟩
        rcases hq with hq | hq <;>
          simp [score_and_resolve, hacc, pyLeB, PyNum.toRat, hq]
  · refine ⟨{ txHash := (score_receipt sdk a env tid 0).transactionHash
              payeeAmount := (decode_resolution (score_receipt sdk a env tid 0)).1
              refundAmount := (decode_resolution (score_receipt sdk a env tid 0)).2 }, ?_⟩
    simp [score_and_resolve, hacc, pyLeB, PyNum.toRat, score_receipt]
  · refine ⟨{ txHash := (score_receipt sdk a env tid 100).transactionHash
              payeeAmount := (decode_resolution (score_receipt sdk a env tid 100)).1
              refundAmount := (decode_resolution (score_receipt sdk a env tid 100)).2 }, ?_⟩
    simp [score_and_resolve, hacc, pyLeB, PyNum.toRat, score_receipt]

/-- Witness: on a concrete signed client, score -1 is rejected with the
score `ValueError` and no network call, the non-integer score 50.5 is
rejected with no network call, and score 100 is accepted and proceeds to
the network round trip. -/
theorem score_validation_boundaries_witness :
    score_and_resolve sdk0 env0 9 (.int (-1)) =
      ([], .error (.valueError "Score must be between 0 and 100"))
    ∧ ((score_and_resolve sdk0 env0 9 (.float (101 / 2))).1 = []
        ∧ ∃ m : String,
            (score_and_resolve sdk0 env0 9 (.float (101 / 2))).2 =
              .error (.valueError m)
          ∨ (score_and_resolve sdk0 env0 9 (.float (101 / 2))).2 =
              .error (.web3ValidationError m))
    ∧ (∃ r : ScoreResult, score_and_resolve sdk0 env0 9 (.int 100) =
        (mutating_trace env0 acct0 (score_and_resolve_tx sdk0 acct0 env0 9 100),
         .ok r)) :=
  ⟨(score_validation_boundaries sdk0 acct0 env0 9 rfl).1,
   (score_validation_boundaries sdk0 acct0 env0 9 rfl).2.2.1 (101 / 2),
   (score_validation_boundaries sdk0 acct0 env0 9 rfl).2.2.2.2⟩

/-- C3: a successful `score_and_resolve` returns exactly the decoded
resolution of the receipt it obtained: when the receipt carries a
`TaskResolved` event, the returned `payeeAmount` and `refundAmount` are
the event's amounts converted from wei to ether; when the event is
absent, both amounts are 0 and the result is still `ok` (no error). -/
theorem resolution_event_decoding (sdk : AgentPaySDK) (a : Account)
    (env : NetworkEnv) (tid : Nat) (s : ℤ)
    (hacc : sdk.account = some a) (h0 : 0 ≤ s) (h1 : s ≤ 100) :
    (score_and_resolve sdk env tid (.int s)).2 =
      .ok { txHash := (score_receipt sdk a env tid s).transactionHash
            payeeAmount := (decode_resolution (score_receipt sdk a env tid s)).1
            refundAmount := (decode_resolution (score_receipt sdk a env tid s)).2 }
    ∧ (∀ (r : Receipt) (e : TaskResolvedEvent),
        r.taskResolvedEvents.head? = some e →
        decode_resolution r = (from_wei e.payeeAmount, from_wei e.refundAmount))
    ∧ (∀ r : Receipt, r.taskResolvedEvents = [] →
        decode_resolution r = (0, 0)) := by
  refine ⟨?_, ?_, ?_⟩
  · have hb0 : ((0 : ℚ) ≤ (s : ℚ)) := by exact_mod_cast h0
    have hb1 : ((s : ℚ) ≤ (100 : ℚ)) := by exact_mod_cast h1
    simp [score_and_resolve, hacc, pyLeB, PyNum.toRat, score_receipt, hb0, hb1]
  · intro r e h
    simp [decode_resolution, h]
  · intro r h
    simp [decode_resolution, h]

/-- Witness: on the concrete environment whose receipt carries a
`TaskResolved` event with amounts `10^18` and `0` wei, the concrete call
returns `payeeAmount = 1` ether and `refundAmount = 0`; on the
event-free environment both decoded amounts are zero. -/
theorem resolution_event_decoding_witness :
    (score_and_resolve sdk0 env0 5 (.int 50)).2 =
      .ok { txHash := (score_receipt sdk0 acct0 env0 5 50).transactionHash
            payeeAmount := (decode_resolution (score_receipt sdk0 acct0 env0 5 50)).1
            refundAmount := (decode_resolution (score_receipt sdk0 acct0 env0 5 50)).2 }
    ∧ decode_resolution (env1.wait_for_transaction_receipt "0xsent") = (0, 0) :=
  ⟨(resolution_event_decoding sdk0 acct0 env0 5 50 rfl (by norm_num)
      (by norm_num)).1,
   (resolution_event_decoding sdk0 acct0 env0 5 50 rfl (by norm_num)
      (by norm_num)).2.2 (env1.wait_for_transaction_receipt "0xsent") rfl⟩

/-- C4: a successful `create_task` returns the receipt's transaction
hash together with the `taskId` of the receipt's first decoded
`TaskCreated` event, and `none` — never a guessed value — when the
receipt carries no such event; its network calls are exactly the round
trip for the built creation transaction. -/
theorem create_task_id_extraction (hash : List Char → List Nat)
    (sdk : AgentPaySDK) (a : Account) (env : NetworkEnv)
    (payee p desc : String) (amt : ℚ) (w : ℤ)
    (hacc : sdk.account = some a)
    (hp : to_checksum_addressS hash payee = some p)
    (hw : to_wei amt = some w) :
    (∀ e : TaskCreatedEvent,
        (create_receipt sdk a env p desc w).taskCreatedEvents.head? = some e →
        (create_task hash sdk env payee desc amt).2 =
          .ok { taskId := some e.taskId
                txHash := (create_receipt sdk a env p desc w).transactionHash })
    ∧ ((create_receipt sdk a env p desc w).taskCreatedEvents = [] →
        (create_task hash sdk env payee desc amt).2 =
          .ok { taskId := none
                txHash := (create_receipt sdk a env p desc w).transactionHash })
    ∧ (create_task hash sdk env payee desc amt).1 =
        mutating_trace env a (create_task_tx sdk a env p desc w) := by
  refine ⟨?_, ?_, ?_⟩
  · intro e he
    simp only [create_receipt] at he
    simp [create_task, hacc, hp, hw, create_receipt, he]
  · intro he
    simp only [create_receipt] at he
    simp [create_task, hacc, hp, hw, create_receipt, he]
  · simp [create_task, hacc, hp, hw, create_receipt]

/-- Witness: on the concrete environment whose receipt carries a
`TaskCreated` event with `taskId = 42`, the concrete `create_task` call
returns `taskId = some 42` and the receipt's hash. -/
theorem create_task_id_extraction_witness :
    (create_task hash0 sdk0 env0 "0xbbbbbbbbbbbbbbbbbbbbbbbbbbbbbbbbbbbbbbbb"
        "d" 2).2 =
      .ok { taskId := some 42
            txHash := (create_receipt sdk0 acct0 env0
              "0xBBBBBBBBBBBBBBBBBBBBBBBBBBBBBBBBBBBBBBBB" "d"
              (2 * 10 ^ 18)).transactionHash } :=
  (create_task_id_extraction hash0 sdk0 acct0 env0
      "0xbbbbbbbbbbbbbbbbbbbbbbbbbbbbbbbbbbbbbbbb"
      "0xBBBBBBBBBBBBBBBBBBBBBBBBBBBBBBBBBBBBBBBB" "d" 2 (2 * 10 ^ 18)
      rfl (by decide) (by norm_num [to_wei, truncQ])).1 ⟨42⟩ rfl

/-- C7: for every valid positive amount (one `to_wei` accepts),
converting to integer wei and back yields the original amount to within
one wei — the minimum denomination step — the round-trip law (the model
works on the exact decimal value, eliding the documented float-precision
loss). -/
theorem wei_round_trip (a : ℚ) (n : ℤ) (_hpos : 0 < a)
    (h : to_wei a = some n) : |from_wei n - a| < from_wei 1 := by
  unfold to_wei at h
  by_cases hr : 0 ≤ a * 10 ^ 18 ∧ a * 10 ^ 18 ≤ 2 ^ 256 - 1
  · rw [if_pos hr, truncQ, if_pos hr.1] at h
    injection h with h
    have hn : n = ⌊a * 10 ^ 18⌋ := h.symm
    subst hn
    have hE : (0 : ℚ) < 10 ^ 18 := by norm_num
    have ha : a = a * 10 ^ 18 / 10 ^ 18 := by field_simp
    rw [from_wei, from_wei, Int.cast_one]
    calc |(⌊a * 10 ^ 18⌋ : ℚ) / 10 ^ 18 - a|
        = |((⌊a * 10 ^ 18⌋ : ℚ) - a * 10 ^ 18) / 10 ^ 18| := by
          rw [sub_div]
          nth_rewrite 2 [ha]
          rfl
      _ = |(⌊a * 10 ^ 18⌋ : ℚ) - a * 10 ^ 18| / 10 ^ 18 := by
          rw [abs_div, abs_of_pos hE]
      _ < 1 / 10 ^ 18 := by
          rw [div_lt_div_iff_of_pos_right hE, abs_sub_lt_iff]
          constructor
          · have := Int.floor_le (a * 10 ^ 18)
            linarith
          · have := Int.sub_one_lt_floor (a * 10 ^ 18)
            linarith
  · rw [if_neg hr] at h
    exact absurd h (by simp)

/-- Witness: the amount 2 ether converts to `2 * 10^18` wei and back to
exactly 2, well within one wei. -/
theorem wei_round_trip_witness :
    0 < (2 : ℚ) ∧ |from_wei (2 * 10 ^ 18) - 2| < from_wei 1 :=
  ⟨by norm_num,
   wei_round_trip 2 (2 * 10 ^ 18) (by norm_num) (by norm_num [to_wei, truncQ])⟩

/-- C8: `set_signer` accepts a private key with or without a `0x`
prefix and derives the same signing identity either way; it overwrites
whatever identity was previously configured (for every prior client
state), leaves the rest of the client unchanged, and performs no network
calls. -/
theorem set_signer_normalization (fromKey : String → Account)
    (sdk : AgentPaySDK) (k : String) (hk : startsWith0x k = false) :
    set_signer fromKey sdk k = set_signer fromKey sdk ("0x" ++ k)
    ∧ (set_signer fromKey sdk k).1.account = some (fromKey ("0x" ++ k))
    ∧ (set_signer fromKey sdk k).1.contract_address = sdk.contract_address
    ∧ (set_signer fromKey sdk k).2 = [] := by
  have hpre : startsWith0x ("0x" ++ k) = true := rfl
  refine ⟨?_, ?_, ?_, ?_⟩ <;> simp [set_signer, hk, hpre]

/-- Witness: setting the concrete bare key `"abcd"` on a client that
already holds an identity equals setting `"0xabcd"`, installs the
derived identity for `"0xabcd"` in place of the old one, and makes no
network call. -/
theorem set_signer_normalization_witness :
    set_signer fromKey0 sdk0 "abcd" = set_signer fromKey0 sdk0 ("0x" ++ "abcd")
    ∧ (set_signer fromKey0 sdk0 "abcd").1.account =
        some (fromKey0 ("0x" ++ "abcd"))
    ∧ (set_signer fromKey0 sdk0 "abcd").1.contract_address =
        sdk0.contract_address
    ∧ (set_signer fromKey0 sdk0 "abcd").2 = [] :=
  set_signer_normalization fromKey0 sdk0 "abcd" (by decide)

/-- C9: every `submit_deliverable` transaction carries no value transfer
and the fixed gas limit 200000, strictly smaller than the fixed gas
limit 500000 of every `create_task` transaction; and with a signer
configured, `submit_deliverable`'s network calls are exactly the round
trip of that transaction. -/
theorem submit_deliverable_tx_shape (sdk : AgentPaySDK) (a : Account)
    (env : NetworkEnv) (tid : Nat) (dh payee desc : String) (w : ℤ)
    (hacc : sdk.account = some a) :
    (submit_deliverable_tx sdk a env tid dh).value = none
    ∧ (submit_deliverable_tx sdk a env tid dh).gas = 200000
    ∧ (create_task_tx sdk a env payee desc w).gas = 500000
    ∧ (submit_deliverable_tx sdk a env tid dh).gas <
        (create_task_tx sdk a env payee desc w).gas
    ∧ (submit_deliverable sdk env tid dh).1 =
        mutating_trace env a (submit_deliverable_tx sdk a env tid dh) := by
  refine ⟨rfl, rfl, rfl, by norm_num [submit_deliverable_tx, create_task_tx], ?_⟩
  simp [submit_deliverable, hacc]

/-- Witness: the concrete submit transaction has no value and gas
200000, below the concrete creation transaction's 500000. -/
theorem submit_deliverable_tx_shape_witness :
    (submit_deliverable_tx sdk0 acct0 env0 1 "h").value = none
    ∧ (submit_deliverable_tx sdk0 acct0 env0 1 "h").gas = 200000
    ∧ (create_task_tx sdk0 acct0 env0 "0xp" "d" 5).gas = 500000
    ∧ (submit_deliverable_tx sdk0 acct0 env0 1 "h").gas <
        (create_task_tx sdk0 acct0 env0 "0xp" "d" 5).gas
    ∧ (submit_deliverable sdk0 env0 1 "h").1 =
        mutating_trace env0 acct0 (submit_deliverable_tx sdk0 acct0 env0 1 "h") :=
  submit_deliverable_tx_shape sdk0 acct0 env0 1 "h" "0xp" "d" 5 rfl
